import Mathlib

/-!
# PaperWM stack overlay

A shallow embedding of `src/stackoverlay.js`.

* Numbers are modelled as `Int` (pixel coordinates); JavaScript `null` and
  `undefined` are `Option.none`.
* Windows are identified by a natural number; everything the module only reads
  (window geometry, the tiling engine's spaces and constants, the monitor and
  the panel) is gathered in `Env`.
* The part of the compositor the module writes to (the sibling order of
  `global.window_group`, the live actors it created, the connected signal
  handlers) is gathered in `Host`.
* A JavaScript exception (dereferencing `null`) is `Option.none` of the
  function that raises it.

The input handlers (`button-press-event`, `button-release-event`), `fadeOut`
and the call `Main.layoutManager._trackActor(overlay)` touch none of the
modelled state and are left out.
-/

namespace PaperWM

/-! ## Data model -/

/-- Scene-graph nodes: the backing actor of a window
(`metaWindow.get_compositor_private()`) or an actor created by this module. -/
inductive Node where
  | windowActor (w : Nat)
  | created (n : Nat)
  deriving DecidableEq

/-- Objects a signal handler can be connected to. -/
inductive Emitter where
  | actor (n : Node)
  | screen
  deriving DecidableEq

/-- What the module reads from its collaborators and never writes.
`margin_lr` is a free identifier of `stackoverlay.js` (declared elsewhere). -/
structure Env where
  stack_margin : Int
  margin_lr : Int
  monitorWidth : Int
  monitorHeight : Int
  panelBoxHeight : Int
  actorX : Nat → Int
  actorY : Nat → Int
  frameX : Nat → Int
  frameWidth : Nat → Int
  destinationX : Nat → Option Int
  spaceOfWindow : Nat → List Nat
  calcOffsetDy : Nat → Int

/-- The compositor state the module mutates. `window_group` lists the children
of `global.window_group` from bottom to top. -/
structure Host where
  nextNode : Nat
  nextHandler : Nat
  window_group : List Node
  live : List Node
  handlers : List (Emitter × Nat)
  deriving DecidableEq

/-- The icon actor returned by `createAppIcon`. -/
structure Icon where
  node : Node
  icon_size : Int
  x : Int
  y : Int
  deriving DecidableEq

/-- The `Clutter.Actor` created in `_init` (named "stack-overlay"). -/
structure Actor where
  node : Node
  x : Int
  y : Int
  width : Int
  height : Int
  visible : Bool
  children : List Icon
  deriving DecidableEq

/-- One instance of the `StackOverlay` class. -/
structure StackOverlay where
  showIcon : Bool
  target : Option Nat
  icon : Option Icon
  overlay : Actor
  pressId : Nat
  releaseId : Nat
  restackId : Nat
  deriving DecidableEq

/-- The module-level variables `leftOverlay` and `rightOverlay`. -/
structure ModuleState where
  leftOverlay : Option StackOverlay
  rightOverlay : Option StackOverlay
  deriving DecidableEq

/-! ## Host primitives -/

/-- Modelled from the spec: the host's `connect` (section 6, "a subscription
mechanism"); it registers a handler on the emitter and returns its fresh id. -/
def Host.connect (h : Host) (e : Emitter) : Nat × Host :=
  (h.nextHandler,
   { h with nextHandler := h.nextHandler + 1, handlers := (e, h.nextHandler) :: h.handlers })

/-- Modelled from the spec: the host's `disconnect`; it removes the handler with
the given id from the given emitter, and nothing else. -/
def Host.disconnect (h : Host) (e : Emitter) (id : Nat) : Host :=
  { h with handlers := h.handlers.filter (fun p => decide (p ≠ (e, id))) }

/-- Modelled from the spec: inserting `child` right after the first occurrence
of `sibling` in a bottom-to-top sibling list. -/
def insertAbove (sibling child : Node) : List Node → List Node
  | [] => []
  | n :: rest =>
    if n = sibling then n :: child :: rest else n :: insertAbove sibling child rest

/-- Modelled from the spec: the host's `set_child_above_sibling` (section 6, "an
operation to reorder a node immediately above a given sibling"). The child is
taken out of the sibling order and put back immediately above `sibling`, or on
top when `sibling` is `null`; the call does nothing when `child` is not a child
of the container, when `sibling` is not one, or when both are the same node. -/
def set_child_above_sibling (children : List Node) (child : Node)
    (sibling : Option Node) : List Node :=
  if child ∈ children then
    match sibling with
    | none => children.filter (fun n => decide (n ≠ child)) ++ [child]
    | some s =>
      if s = child ∨ s ∉ children then children
      else insertAbove s child (children.filter (fun n => decide (n ≠ child)))
  else children

/-- Modelled from the spec: `add_child` on `global.window_group` puts the new
child on top of the sibling order. -/
def Host.add_child (h : Host) (n : Node) : Host :=
  { h with window_group := h.window_group ++ [n] }

/-- Modelled from the spec: `destroy()` of an actor of this module; the actor
and its children stop being live and the actor leaves its parent. -/
def Host.destroy (h : Host) (n : Node) (children : List Node) : Host :=
  { h with
    live := h.live.filter (fun m => decide (m ≠ n ∧ m ∉ children))
    window_group := h.window_group.filter (fun m => decide (m ≠ n)) }

/-- The JavaScript expression `a || b` where `a` is a number or `undefined`:
`undefined` and `0` are falsy. -/
def orNumber (a : Option Int) (b : Int) : Int :=
  match a with
  | some v => if v = 0 then b else v
  | none => b

/-- The JavaScript `space.indexOf(w)`: first index of `w`, or `-1`. -/
def indexOf (space : List Nat) (w : Nat) : Int :=
  if w ∈ space then (space.indexOf w : Int) else -1

/-- The JavaScript `space[i]`: `undefined` outside the array. -/
def elemAt (space : List Nat) (i : Int) : Option Nat :=
  if 0 ≤ i then space[i.toNat]? else none

/-! ## The module -/

/-- The function `createAppIcon(metaWindow, size)`: a fresh icon actor of the
given size (the application icon or the placeholder glyph). -/
def createAppIcon (h : Host) (size : Int) : Icon × Host :=
  ({ node := Node.created h.nextNode, icon_size := size, x := 0, y := 0 },
   { h with nextNode := h.nextNode + 1, live := Node.created h.nextNode :: h.live })

/-- The constructor `StackOverlay._init(showIcon)`. -/
def StackOverlay._init (env : Env) (h : Host) (showIcon : Bool) : Host × StackOverlay :=
  let node := Node.created h.nextNode
  let h1 : Host := { h with nextNode := h.nextNode + 1, live := node :: h.live }
  let overlay : Actor :=
    { node := node
      x := 0
      y := env.panelBoxHeight
      height := env.monitorHeight - env.panelBoxHeight
      width := env.stack_margin
      visible := false
      children := [] }
  let press := h1.connect (Emitter.actor node)
  let release := press.2.connect (Emitter.actor node)
  let h2 := release.2.add_child node
  let restack := h2.connect Emitter.screen
  (restack.2,
   { showIcon := showIcon
     target := none
     icon := none
     overlay := overlay
     pressId := press.1
     releaseId := release.1
     restackId := restack.1 })

/-- The handler connected to the `restacked` signal in `_init`. -/
def StackOverlay.restacked (h : Host) (self : StackOverlay) : Host :=
  match self.target with
  | none => h
  | some target =>
    let actor := Node.windowActor target
    { h with window_group := set_child_above_sibling h.window_group self.overlay.node (some actor) }

/-- The first statement of `updateIcon`: an existing icon is destroyed and the
field is reset. -/
def StackOverlay.dropIcon (h : Host) (self : StackOverlay) : Host × StackOverlay :=
  match self.icon with
  | some old =>
    (h.destroy old.node [],
     { self with
       icon := none
       overlay := { self.overlay with
         children := self.overlay.children.filter (fun c => decide (c.node ≠ old.node)) } })
  | none => (h, self)

/-- The method `updateIcon()`. Without a target it raises on
`this.target.get_compositor_private()`, which is `none` here; `setTarget` only
calls it with the target set. -/
def StackOverlay.updateIcon (env : Env) (h : Host) (self : StackOverlay) :
    Option (Host × StackOverlay) :=
  let dropped := StackOverlay.dropIcon h self
  let iconMarginX : Int := 2
  let iconSize : Int := env.margin_lr
  let made := createAppIcon dropped.1 iconSize
  match dropped.2.target with
  | none => none
  | some target =>
    let x : Int :=
      if env.actorX target ≤ env.stack_margin then iconMarginX
      else dropped.2.overlay.width - iconMarginX - iconSize
    let dy := env.calcOffsetDy target
    let icon : Icon :=
      { made.1 with x := x, y := env.actorY target + dy + 4 - dropped.2.overlay.y }
    some (made.2,
      { dropped.2 with
        icon := some icon
        overlay := { dropped.2.overlay with children := dropped.2.overlay.children ++ [icon] } })

/-- The closure `bail` of `setTarget`. -/
def StackOverlay.bail (h : Host) (self : StackOverlay) : Bool × Host × StackOverlay :=
  (false, h, { self with target := none, overlay := { self.overlay with visible := false } })

/-- The two edge branches of `setTarget` (the `if (actor.x < Tiling.stack_margin)`
statement): `none` when the branch bails, otherwise the values assigned to
`overlay.x` and `overlay.width`. -/
def StackOverlay.edgeBranch (env : Env) (metaWindow : Nat) : Option (Int × Int) :=
  let resizeBorderWidth : Int := 5
  let space := env.spaceOfWindow metaWindow
  if env.actorX metaWindow < env.stack_margin then
    match elemAt space (indexOf space metaWindow + 1) with
    | none => none
    | some neighbour =>
      let neighbourX := orNumber (env.destinationX neighbour) (env.frameX neighbour)
      some (0, min env.stack_margin (max 0 (neighbourX - resizeBorderWidth)))
  else
    match elemAt space (indexOf space metaWindow - 1) with
    | none => none
    | some neighbour =>
      let neighbourX := orNumber (env.destinationX neighbour) (env.frameX neighbour)
      let x := max (env.monitorWidth - env.stack_margin)
        (neighbourX + env.frameWidth neighbour + resizeBorderWidth)
      some (x, env.monitorWidth - x)

/-- The method `setTarget(metaWindow)`; the result carries the returned
boolean. -/
def StackOverlay.setTarget (env : Env) (h : Host) (self : StackOverlay)
    (metaWindow : Option Nat) : Option (Bool × Host × StackOverlay) :=
  let self1 : StackOverlay := { self with target := metaWindow }
  match metaWindow with
  | none => some (StackOverlay.bail h self1)
  | some w =>
    let actor := Node.windowActor w
    match StackOverlay.edgeBranch env w with
    | none => some (StackOverlay.bail h self1)
    | some geometry =>
      let self2 : StackOverlay :=
        { self1 with overlay := { self1.overlay with x := geometry.1, width := geometry.2 } }
      match (if self2.showIcon then StackOverlay.updateIcon env h self2 else some (h, self2)) with
      | none => none
      | some st =>
        some (true,
          { st.1 with window_group :=
              set_child_above_sibling st.1.window_group st.2.overlay.node (some actor) },
          { st.2 with overlay := { st.2.overlay with visible := true } })

/-- The function `enable()`: both instances are built without `showIcon`. -/
def enable (env : Env) (h : Host) : Host × ModuleState :=
  let left := StackOverlay._init env h false
  let right := StackOverlay._init env left.1 false
  (right.1, { leftOverlay := some left.2, rightOverlay := some right.2 })

/-- The body of the loop of `disable()` for one instance. -/
def disableOne (h : Host) (overlay : StackOverlay) : Host × StackOverlay :=
  let actor := overlay.overlay
  let h1 := h.disconnect (Emitter.actor actor.node) overlay.pressId
  let h2 := h1.disconnect (Emitter.actor actor.node) overlay.releaseId
  let h3 := h2.disconnect Emitter.screen overlay.restackId
  (h3.destroy actor.node (actor.children.map Icon.node),
   { overlay with overlay := { actor with children := [] } })

/-- The function `disable()`. It raises (`none`) when an instance is missing. -/
def disable (h : Host) (m : ModuleState) : Option (Host × ModuleState) :=
  match m.leftOverlay, m.rightOverlay with
  | some left, some right =>
    let l := disableOne h left
    let r := disableOne l.1 right
    some (r.1, { leftOverlay := some l.2, rightOverlay := some r.2 })
  | _, _ => none

/-! ## Sample environments -/

/-- Monitor 1920 wide, stack margin 50, one space holding windows 0, 1, 2; window
0 sits at the left edge, window 1 at x = 50, window 2 at the right edge. -/
def sampleEnv : Env :=
  { stack_margin := 50
    margin_lr := 16
    monitorWidth := 1920
    monitorHeight := 1080
    panelBoxHeight := 27
    actorX := fun w => if w = 0 then 0 else if w = 1 then 50 else 1870
    actorY := fun _ => 27
    frameX := fun w => if w = 0 then 0 else if w = 1 then 50 else 1870
    frameWidth := fun _ => 800
    destinationX := fun _ => none
    spaceOfWindow := fun _ => [0, 1, 2]
    calcOffsetDy := fun _ => 0 }

/-- A host with the three window actors stacked in the window group. -/
def sampleHost : Host :=
  { nextNode := 0
    nextHandler := 1
    window_group := [Node.windowActor 0, Node.windowActor 1, Node.windowActor 2]
    live := []
    handlers := [] }

/-- The neighbour the spec calls relevant (section 4.1): the window at
`index + 1` at the left edge (`actor.x < stack_margin`), at `index - 1`
otherwise; `none` when the space has no such element. -/
def relevantNeighbour (env : Env) (w : Nat) : Option Nat :=
  if env.actorX w < env.stack_margin then
    elemAt (env.spaceOfWindow w) (indexOf (env.spaceOfWindow w) w + 1)
  else
    elemAt (env.spaceOfWindow w) (indexOf (env.spaceOfWindow w) w - 1)

/-- A freshly constructed instance on the sample host, with or without icon
display. -/
def sampleOverlay (showIcon : Bool) : Host × StackOverlay :=
  StackOverlay._init sampleEnv sampleHost showIcon

/-- The sample monitor with two windows: window 0 spans the whole monitor
(x = 0, width 1920) and window 1 is stacked at the right edge. -/
def wideNeighbourEnv : Env :=
  { sampleEnv with
    actorX := fun w => if w = 0 then 0 else 1870
    frameX := fun w => if w = 0 then 0 else 1870
    frameWidth := fun _ => 1920
    spaceOfWindow := fun _ => [0, 1] }

/-- The sample environment where window 1 (at x = 50) is animating towards
x = 0. -/
def zeroDestinationEnv : Env :=
  { sampleEnv with destinationX := fun w => if w = 1 then some 0 else none }

/-- The sample environment where window 1 (at x = 50) is animating towards
x = 800. -/
def animatingEnv : Env :=
  { sampleEnv with destinationX := fun w => if w = 1 then some 800 else none }

/-- A monitor 60 wide with stack margin 50 and four windows: the left stack's
neighbour (window 1) is at x = 100, the right stack's neighbour (window 2) is 50
wide at x = -100. -/
def narrowMonitorEnv : Env :=
  { sampleEnv with
    monitorWidth := 60
    actorX := fun w => if w = 0 then 0 else if w = 3 then 55 else 10
    frameX := fun w => if w = 1 then 100 else if w = 2 then -100 else 0
    frameWidth := fun _ => 50
    spaceOfWindow := fun _ => [0, 1, 2, 3] }

/-- The sample environment with window 7 alone in its space. -/
def soleWindowEnv (x : Int) : Env :=
  { sampleEnv with
    actorX := fun _ => x
    spaceOfWindow := fun _ => [7] }

/-- What can happen to an instance after its construction: a `setTarget` call
(in the environment of that moment) or a restack notification, delivered after
the host has rewritten the sibling order of the window group. -/
inductive Event where
  | setTarget (env : Env) (metaWindow : Option Nat)
  | restacked (order : List Node)

/-- One event applied to the host and the instance. -/
def step (st : Host × StackOverlay) : Event → Option (Host × StackOverlay)
  | Event.setTarget env metaWindow =>
    (StackOverlay.setTarget env st.1 st.2 metaWindow).map (fun r => r.2)
  | Event.restacked order =>
    some (StackOverlay.restacked { st.1 with window_group := order } st.2, st.2)

/-- A sequence of events applied in order. -/
def run (st : Host × StackOverlay) : List Event → Option (Host × StackOverlay)
  | [] => some st
  | e :: rest =>
    match step st e with
    | none => none
    | some st1 => run st1 rest

/-- In the sibling order `order` (bottom to top) the node `upper` comes right
after the node `lower`. -/
def ImmediatelyAbove (order : List Node) (upper lower : Node) : Prop :=
  ∃ below above, order = below ++ lower :: upper :: above

/-- Nothing of the instance is left on the host: its three handlers are
disconnected, its overlay actor and the children of that actor are not live. -/
def TornDown (h : Host) (self : StackOverlay) : Prop :=
  (Emitter.actor self.overlay.node, self.pressId) ∉ h.handlers ∧
  (Emitter.actor self.overlay.node, self.releaseId) ∉ h.handlers ∧
  (Emitter.screen, self.restackId) ∉ h.handlers ∧
  self.overlay.node ∉ h.live ∧
  ∀ c, c ∈ self.overlay.children → c.node ∉ h.live

/-- The property of a host and instance that every event preserves: the
icon-display flag is the one given at construction, an instance without target
is hidden, and without icon display there is no icon. -/
def IdleHidden (showIcon : Bool) (st : Host × StackOverlay) : Prop :=
  st.2.showIcon = showIcon ∧
  (st.2.target = none → st.2.overlay.visible = false) ∧
  (showIcon = false → st.2.icon = none ∧ st.2.overlay.children = [])

/-- The icon position `(x, y)` of an instance, when it has an icon. -/
def StackOverlay.iconPosition (self : StackOverlay) : Option (Int × Int) :=
  self.icon.map (fun i => (i.x, i.y))

/-! ## What `setTarget` computes -/

theorem dropIcon_target (h : Host) (self : StackOverlay) :
    (StackOverlay.dropIcon h self).2.target = self.target := by
  unfold StackOverlay.dropIcon
  cases self.icon <;> rfl

theorem dropIcon_geometry (h : Host) (self : StackOverlay) :
    (StackOverlay.dropIcon h self).2.overlay.x = self.overlay.x ∧
    (StackOverlay.dropIcon h self).2.overlay.y = self.overlay.y ∧
    (StackOverlay.dropIcon h self).2.overlay.width = self.overlay.width ∧
    (StackOverlay.dropIcon h self).2.overlay.height = self.overlay.height ∧
    (StackOverlay.dropIcon h self).2.overlay.node = self.overlay.node ∧
    (StackOverlay.dropIcon h self).2.overlay.visible = self.overlay.visible ∧
    (StackOverlay.dropIcon h self).2.showIcon = self.showIcon ∧
    (StackOverlay.dropIcon h self).2.pressId = self.pressId ∧
    (StackOverlay.dropIcon h self).2.releaseId = self.releaseId ∧
    (StackOverlay.dropIcon h self).2.restackId = self.restackId := by
  unfold StackOverlay.dropIcon
  cases self.icon <;> simp

/-- With a target set, `updateIcon` returns, leaves the overlay rectangle alone
and places the new icon. -/
theorem updateIcon_of_target (env : Env) (h : Host) (self : StackOverlay) (t : Nat)
    (ht : self.target = some t) :
    ∃ h1 self1, StackOverlay.updateIcon env h self = some (h1, self1) ∧
      self1.target = some t ∧ self1.showIcon = self.showIcon ∧
      self1.overlay.x = self.overlay.x ∧ self1.overlay.y = self.overlay.y ∧
      self1.overlay.width = self.overlay.width ∧
      self1.overlay.height = self.overlay.height ∧
      self1.overlay.node = self.overlay.node ∧
      self1.overlay.visible = self.overlay.visible ∧
      self1.pressId = self.pressId ∧ self1.releaseId = self.releaseId ∧
      self1.restackId = self.restackId ∧
      self1.iconPosition = some
        (if env.actorX t ≤ env.stack_margin then 2 else self.overlay.width - 2 - env.margin_lr,
         env.actorY t + env.calcOffsetDy t + 4 - self.overlay.y) := by
  have hd := dropIcon_target h self
  obtain ⟨g1, g2, g3, g4, g5, g6, g7, g8, g9, g10⟩ := dropIcon_geometry h self
  rw [ht] at hd
  unfold StackOverlay.updateIcon
  simp only [hd]
  refine ⟨_, _, rfl, ?_⟩
  simp [StackOverlay.iconPosition, createAppIcon, g1, g2, g3, g4, g5, g6, g7, g8, g9, g10, hd]

/-- The shape of every `setTarget` call whose edge branch found a neighbour. -/
theorem setTarget_of_edgeBranch (env : Env) (h : Host) (self : StackOverlay) (w : Nat)
    (g : Int × Int) (hg : StackOverlay.edgeBranch env w = some g) :
    ∃ h1 self1, StackOverlay.setTarget env h self (some w) = some (true, h1, self1) ∧
      self1.target = some w ∧ self1.showIcon = self.showIcon ∧
      self1.overlay.x = g.1 ∧ self1.overlay.y = self.overlay.y ∧
      self1.overlay.width = g.2 ∧
      self1.overlay.height = self.overlay.height ∧
      self1.overlay.node = self.overlay.node ∧
      self1.overlay.visible = true ∧
      self1.pressId = self.pressId ∧ self1.releaseId = self.releaseId ∧
      self1.restackId = self.restackId ∧
      self1.iconPosition =
        (if self.showIcon = true then some
          (if env.actorX w ≤ env.stack_margin then 2 else g.2 - 2 - env.margin_lr,
           env.actorY w + env.calcOffsetDy w + 4 - self.overlay.y)
         else self.iconPosition) := by
  unfold StackOverlay.setTarget
  simp only [hg]
  cases hsi : self.showIcon
  · simp only [Bool.false_eq_true, if_false]
    refine ⟨_, _, rfl, ?_⟩
    simp [StackOverlay.iconPosition]
  · obtain ⟨h1, self1, hu, k1, k2, k3, k4, k5, k6, k7, k8, k9, k10, k11, k12⟩ :=
      updateIcon_of_target env h
        { self with target := some w, overlay := { self.overlay with x := g.1, width := g.2 } }
        w rfl
    rw [hsi] at hu
    simp only [if_true, hu]
    refine ⟨_, _, rfl, ?_⟩
    simp_all [StackOverlay.iconPosition]

/-- The shape of every `setTarget` call that bails. -/
theorem setTarget_of_bail (env : Env) (h : Host) (self : StackOverlay)
    (metaWindow : Option Nat)
    (hb : ∀ w, metaWindow = some w → StackOverlay.edgeBranch env w = none) :
    StackOverlay.setTarget env h self metaWindow =
      some (false, h,
        { self with target := none, overlay := { self.overlay with visible := false } }) := by
  unfold StackOverlay.setTarget
  cases metaWindow with
  | none => simp [StackOverlay.bail]
  | some w => simp [hb w rfl, StackOverlay.bail]

/-- Calling `setTarget` never raises. -/
theorem setTarget_total (env : Env) (h : Host) (self : StackOverlay)
    (metaWindow : Option Nat) :
    ∃ r, StackOverlay.setTarget env h self metaWindow = some r := by
  cases metaWindow with
  | none => exact ⟨_, setTarget_of_bail env h self none (by simp)⟩
  | some w =>
    cases hg : StackOverlay.edgeBranch env w with
    | none =>
      exact ⟨_, setTarget_of_bail env h self (some w) (by intro v hv; cases hv; exact hg)⟩
    | some g =>
      obtain ⟨h1, self1, hs, _⟩ := setTarget_of_edgeBranch env h self w g hg
      exact ⟨_, hs⟩

theorem edgeBranch_eq_none_iff (env : Env) (w : Nat) :
    StackOverlay.edgeBranch env w = none ↔ relevantNeighbour env w = none := by
  unfold StackOverlay.edgeBranch relevantNeighbour
  by_cases hx : env.actorX w < env.stack_margin
  · simp only [hx, if_true]
    cases elemAt (env.spaceOfWindow w) (indexOf (env.spaceOfWindow w) w + 1) <;> simp
  · simp only [hx, if_false]
    cases elemAt (env.spaceOfWindow w) (indexOf (env.spaceOfWindow w) w - 1) <;> simp

theorem edgeBranch_left (env : Env) (w n : Nat) (hx : env.actorX w < env.stack_margin)
    (hn : relevantNeighbour env w = some n) :
    StackOverlay.edgeBranch env w =
      some (0, min env.stack_margin
        (max 0 (orNumber (env.destinationX n) (env.frameX n) - 5))) := by
  unfold relevantNeighbour at hn
  simp only [hx, if_true] at hn
  unfold StackOverlay.edgeBranch
  simp only [hx, if_true, hn]

theorem edgeBranch_right (env : Env) (w n : Nat) (hx : ¬ env.actorX w < env.stack_margin)
    (hn : relevantNeighbour env w = some n) :
    StackOverlay.edgeBranch env w =
      some (max (env.monitorWidth - env.stack_margin)
              (orNumber (env.destinationX n) (env.frameX n) + env.frameWidth n + 5),
            env.monitorWidth - max (env.monitorWidth - env.stack_margin)
              (orNumber (env.destinationX n) (env.frameX n) + env.frameWidth n + 5)) := by
  unfold relevantNeighbour at hn
  simp only [hx, if_false] at hn
  unfold StackOverlay.edgeBranch
  simp only [hx, if_false, hn]

/-- A successful `setTarget` is exactly one whose relevant neighbour exists. -/
theorem setTarget_true_iff (env : Env) (h : Host) (self : StackOverlay) (w : Nat) :
    (∃ h1 self1, StackOverlay.setTarget env h self (some w) = some (true, h1, self1)) ↔
      ∃ n, relevantNeighbour env w = some n := by
  constructor
  · rintro ⟨h1, self1, hs⟩
    cases hn : relevantNeighbour env w with
    | some n => exact ⟨n, rfl⟩
    | none =>
      have hb := setTarget_of_bail env h self (some w)
        (by intro v hv; cases hv; exact (edgeBranch_eq_none_iff env w).2 hn)
      rw [hb] at hs
      simp at hs
  · rintro ⟨n, hn⟩
    cases hg : StackOverlay.edgeBranch env w with
    | none =>
      rw [(edgeBranch_eq_none_iff env w).1 hg] at hn
      cases hn
    | some g =>
      obtain ⟨h1, self1, hs, _⟩ := setTarget_of_edgeBranch env h self w g hg
      exact ⟨h1, self1, hs⟩

theorem orNumber_none (fx : Int) : orNumber none fx = fx := rfl

/-- A destination x other than 0 takes precedence over the frame x. -/
theorem orNumber_some_ne_zero (d fx : Int) (hd : d ≠ 0) : orNumber (some d) fx = d := by
  simp [orNumber, hd]

/-- A destination x of 0 is falsy: the frame x is used. -/
theorem orNumber_some_zero (fx : Int) : orNumber (some 0) fx = fx := by
  simp [orNumber]

/-! ## Overlay geometry -/

/-- In the left-edge branch the width set by `setTarget` lies between 0 and the
stack margin. -/
theorem setTarget_left_width_bounds (env : Env) (h : Host) (self : StackOverlay) (w n : Nat)
    (hm : 0 ≤ env.stack_margin) (hx : env.actorX w < env.stack_margin)
    (hn : relevantNeighbour env w = some n) :
    ∃ h1 self1, StackOverlay.setTarget env h self (some w) = some (true, h1, self1) ∧
      0 ≤ self1.overlay.width ∧ self1.overlay.width ≤ env.stack_margin := by
  obtain ⟨h1, self1, hs, _, _, _, _, hw, _⟩ :=
    setTarget_of_edgeBranch env h self w _ (edgeBranch_left env w n hx hn)
  refine ⟨h1, self1, hs, ?_, ?_⟩
  · rw [hw]; exact le_min hm (le_max_left _ _)
  · rw [hw]; exact min_le_left _ _

/-- In the right-edge branch the width set by `setTarget` is at most the stack
margin, and it is non-negative exactly when the neighbour's right edge plus the
resize border stays within the monitor. -/
theorem setTarget_right_width_bounds (env : Env) (h : Host) (self : StackOverlay) (w n : Nat)
    (hm : 0 ≤ env.stack_margin) (hx : ¬ env.actorX w < env.stack_margin)
    (hn : relevantNeighbour env w = some n) :
    ∃ h1 self1, StackOverlay.setTarget env h self (some w) = some (true, h1, self1) ∧
      self1.overlay.width ≤ env.stack_margin ∧
      (0 ≤ self1.overlay.width ↔
        orNumber (env.destinationX n) (env.frameX n) + env.frameWidth n + 5
          ≤ env.monitorWidth) := by
  obtain ⟨h1, self1, hs, _, _, _, _, hw, _⟩ :=
    setTarget_of_edgeBranch env h self w _ (edgeBranch_right env w n hx hn)
  refine ⟨h1, self1, hs, ?_, ?_⟩
  · rw [hw]
    have := le_max_left (env.monitorWidth - env.stack_margin)
      (orNumber (env.destinationX n) (env.frameX n) + env.frameWidth n + 5)
    simp only at this ⊢
    omega
  · rw [hw]
    simp only
    constructor
    · intro h0
      have := le_max_right (env.monitorWidth - env.stack_margin)
        (orNumber (env.destinationX n) (env.frameX n) + env.frameWidth n + 5)
      omega
    · intro h0
      have : max (env.monitorWidth - env.stack_margin)
          (orNumber (env.destinationX n) (env.frameX n) + env.frameWidth n + 5)
          ≤ env.monitorWidth := max_le (by omega) h0
      omega

/-- Claim C1, evaluated at the failing input. Monitor 1920, stack margin 50,
target window 1 in the right-edge branch, neighbour window 0 spanning the whole
monitor (frame x 0, width 1920): `setTarget` succeeds, puts the overlay at
x = 1925 and sets its width to -5, a negative width. -/
theorem setTarget_right_width_negative :
    0 ≤ wideNeighbourEnv.stack_margin ∧
    ¬ wideNeighbourEnv.actorX 1 < wideNeighbourEnv.stack_margin ∧
    relevantNeighbour wideNeighbourEnv 1 = some 0 ∧
    ∃ h1 self1,
      StackOverlay.setTarget wideNeighbourEnv (sampleOverlay false).1 (sampleOverlay false).2
        (some 1) = some (true, h1, self1) ∧
      self1.overlay.x = 1925 ∧ self1.overlay.width = -5 ∧ ¬ 0 ≤ self1.overlay.width := by
  refine ⟨by decide, by decide, by decide, _, _, rfl, by decide, by decide, by decide⟩

/-- Claim C3. When the relevant neighbour `n` of the target exists and has no
destination x, `setTarget` succeeds and the overlay rectangle is the spec's: at
the left edge x = 0 and width = min(stackMargin, max(0, frameX - 5)); at the
right edge x = max(monitorWidth - stackMargin, frameX + width + 5) and
width = monitorWidth - x. -/
theorem setTarget_rectangle_not_animating (env : Env) (h : Host) (self : StackOverlay)
    (w n : Nat) (hn : relevantNeighbour env w = some n) (hd : env.destinationX n = none) :
    ∃ h1 self1, StackOverlay.setTarget env h self (some w) = some (true, h1, self1) ∧
      (env.actorX w < env.stack_margin →
        self1.overlay.x = 0 ∧
        self1.overlay.width = min env.stack_margin (max 0 (env.frameX n - 5))) ∧
      (¬ env.actorX w < env.stack_margin →
        self1.overlay.x =
          max (env.monitorWidth - env.stack_margin) (env.frameX n + env.frameWidth n + 5) ∧
        self1.overlay.width = env.monitorWidth - self1.overlay.x) := by
  by_cases hx : env.actorX w < env.stack_margin
  · obtain ⟨h1, self1, hs, _, _, hox, _, hw, _⟩ :=
      setTarget_of_edgeBranch env h self w _ (edgeBranch_left env w n hx hn)
    refine ⟨h1, self1, hs, fun _ => ?_, fun hc => absurd hx hc⟩
    rw [hox, hw, hd, orNumber_none]
    exact ⟨rfl, rfl⟩
  · obtain ⟨h1, self1, hs, _, _, hox, _, hw, _⟩ :=
      setTarget_of_edgeBranch env h self w _ (edgeBranch_right env w n hx hn)
    refine ⟨h1, self1, hs, fun hc => absurd hc hx, fun _ => ?_⟩
    rw [hox, hw, hd, orNumber_none]
    exact ⟨rfl, rfl⟩

/-- Claim C3, witness. Monitor width 1920, stack margin 50, target at index 0 of three
windows, neighbour at x = 50: the overlay rectangle is x = 0, width = 45. -/
theorem setTarget_rectangle_not_animating_witness :
    relevantNeighbour sampleEnv 0 = some 1 ∧ sampleEnv.destinationX 1 = none ∧
    ∃ h1 self1,
      StackOverlay.setTarget sampleEnv (sampleOverlay false).1 (sampleOverlay false).2 (some 0)
        = some (true, h1, self1) ∧
      self1.overlay.x = 0 ∧ self1.overlay.width = 45 := by
  refine ⟨by decide, rfl, ?_⟩
  obtain ⟨h1, self1, hs, hl, _⟩ :=
    setTarget_rectangle_not_animating sampleEnv (sampleOverlay false).1
      (sampleOverlay false).2 0 1 (by decide) rfl
  refine ⟨h1, self1, hs, (hl (by decide)).1, ?_⟩
  rw [(hl (by decide)).2]
  decide

/-- Whenever the neighbour has a destination x other than 0, the rectangle set
by `setTarget` is computed from the destination x alone. -/
theorem setTarget_uses_nonzero_destination (env : Env) (h : Host) (self : StackOverlay)
    (w n : Nat) (d : Int) (hn : relevantNeighbour env w = some n)
    (hd : env.destinationX n = some d) (h0 : d ≠ 0) :
    ∃ h1 self1, StackOverlay.setTarget env h self (some w) = some (true, h1, self1) ∧
      (env.actorX w < env.stack_margin →
        self1.overlay.x = 0 ∧
        self1.overlay.width = min env.stack_margin (max 0 (d - 5))) ∧
      (¬ env.actorX w < env.stack_margin →
        self1.overlay.x =
          max (env.monitorWidth - env.stack_margin) (d + env.frameWidth n + 5) ∧
        self1.overlay.width = env.monitorWidth - self1.overlay.x) := by
  by_cases hx : env.actorX w < env.stack_margin
  · obtain ⟨h1, self1, hs, _, _, hox, _, hw, _⟩ :=
      setTarget_of_edgeBranch env h self w _ (edgeBranch_left env w n hx hn)
    refine ⟨h1, self1, hs, fun _ => ?_, fun hc => absurd hx hc⟩
    rw [hox, hw, hd, orNumber_some_ne_zero d _ h0]
    exact ⟨rfl, rfl⟩
  · obtain ⟨h1, self1, hs, _, _, hox, _, hw, _⟩ :=
      setTarget_of_edgeBranch env h self w _ (edgeBranch_right env w n hx hn)
    refine ⟨h1, self1, hs, fun hc => absurd hc hx, fun _ => ?_⟩
    rw [hox, hw, hd, orNumber_some_ne_zero d _ h0]
    exact ⟨rfl, rfl⟩

/-- The spec's example of destination-x precedence: neighbour at x = 50 animating
towards x = 800, stack margin 50, gives a left overlay of width 50. -/
theorem setTarget_animating_example :
    ∃ h1 self1,
      StackOverlay.setTarget animatingEnv (sampleOverlay false).1 (sampleOverlay false).2
        (some 0) = some (true, h1, self1) ∧
      self1.overlay.x = 0 ∧ self1.overlay.width = 50 :=
  ⟨_, _, rfl, by decide, by decide⟩

/-- Claim C4, evaluation at the failing input. The neighbour (window 1) has current
frame x = 50 and destination x = 0; stack margin 50. `setTarget` sets the left
overlay width to 45, the value computed from the frame x, whereas the
destination x as effective x gives min(50, max(0, 0 - 5)) = 0. -/
theorem setTarget_zero_destination_ignored :
    relevantNeighbour zeroDestinationEnv 0 = some 1 ∧
    zeroDestinationEnv.destinationX 1 = some 0 ∧
    zeroDestinationEnv.frameX 1 = 50 ∧
    ∃ h1 self1,
      StackOverlay.setTarget zeroDestinationEnv (sampleOverlay false).1
        (sampleOverlay false).2 (some 0) = some (true, h1, self1) ∧
      self1.overlay.width = 45 ∧
      self1.overlay.width = min zeroDestinationEnv.stack_margin
        (max 0 (zeroDestinationEnv.frameX 1 - 5)) ∧
      self1.overlay.width ≠ min zeroDestinationEnv.stack_margin (max 0 (0 - 5)) :=
  ⟨by decide, rfl, rfl, _, _, rfl, by decide, by decide, by decide⟩

/-- Claim C10, evaluation at the failing input. Stack margin 50, icon size 16, target
window 1 with actor x = 50, icon display enabled: `setTarget` takes the
right-edge branch (overlay x = 1870, width 50), yet `updateIcon` puts the icon
at x = 2, not at width - 2 - iconSize = 32. -/
theorem setTarget_icon_edge_mismatch :
    ¬ sampleEnv.actorX 1 < sampleEnv.stack_margin ∧
    ∃ h1 self1,
      StackOverlay.setTarget sampleEnv (sampleOverlay true).1 (sampleOverlay true).2 (some 1)
        = some (true, h1, self1) ∧
      self1.overlay.x = 1870 ∧ self1.overlay.width = 50 ∧
      self1.iconPosition = some (2, 4) ∧
      self1.overlay.width - 2 - sampleEnv.margin_lr = 32 :=
  ⟨by decide, _, _, rfl, by decide, by decide, by decide, by decide⟩

/-- Away from the boundary `actor.x = stack_margin` the icon placement of a
successful `setTarget` follows the edge branch taken. -/
theorem setTarget_icon_follows_branch (env : Env) (h : Host) (self : StackOverlay)
    (w n : Nat) (hn : relevantNeighbour env w = some n) (hsi : self.showIcon = true)
    (hne : env.actorX w ≠ env.stack_margin) :
    ∃ h1 self1 y, StackOverlay.setTarget env h self (some w) = some (true, h1, self1) ∧
      (env.actorX w < env.stack_margin → self1.iconPosition = some (2, y)) ∧
      (¬ env.actorX w < env.stack_margin →
        self1.iconPosition = some (self1.overlay.width - 2 - env.margin_lr, y)) := by
  cases hg : StackOverlay.edgeBranch env w with
  | none =>
    rw [(edgeBranch_eq_none_iff env w).1 hg] at hn
    cases hn
  | some g =>
    obtain ⟨h1, self1, hs, _, _, _, _, hw, _, _, _, _, _, _, hi⟩ :=
      setTarget_of_edgeBranch env h self w g hg
    refine ⟨h1, self1, env.actorY w + env.calcOffsetDy w + 4 - self.overlay.y, hs,
      fun hx => ?_, fun hx => ?_⟩
    · rw [hi, if_pos hsi, if_pos (le_of_lt hx)]
    · have hgt : ¬ env.actorX w ≤ env.stack_margin := by
        intro hle
        exact hx (lt_of_le_of_ne hle hne)
      rw [hi, if_pos hsi, if_neg hgt, hw]

/-! ## Failure and idempotence -/

/-- Claim C2. For an absent window, for a target without a neighbour on its relevant
side, and for a target that is alone in its space, `setTarget` returns false
and leaves the instance idle: no target, overlay hidden. -/
theorem setTarget_bails_without_neighbour (env : Env) (h : Host) (self : StackOverlay)
    (metaWindow : Option Nat)
    (hb : ∀ w, metaWindow = some w →
      relevantNeighbour env w = none ∨ env.spaceOfWindow w = [w]) :
    ∃ h1 self1, StackOverlay.setTarget env h self metaWindow = some (false, h1, self1) ∧
      self1.target = none ∧ self1.overlay.visible = false := by
  refine ⟨_, _, setTarget_of_bail env h self metaWindow ?_, rfl, rfl⟩
  intro w hw
  rw [edgeBranch_eq_none_iff]
  rcases hb w hw with hnone | hsole
  · exact hnone
  · unfold relevantNeighbour
    rw [hsole]
    by_cases hx : env.actorX w < env.stack_margin
    · simp [hx, indexOf, elemAt]
    · simp [hx, indexOf, elemAt]

/-- Claim C2, witness. A window alone in its space: `setTarget` fails in the left-edge
branch (actor x = 0) and in the right-edge branch (actor x = 1870), and it fails
for an absent window. -/
theorem setTarget_bails_without_neighbour_witness :
    (∃ h1 self1,
      StackOverlay.setTarget (soleWindowEnv 0) (sampleOverlay true).1 (sampleOverlay true).2
        (some 7) = some (false, h1, self1) ∧
      self1.target = none ∧ self1.overlay.visible = false) ∧
    (∃ h1 self1,
      StackOverlay.setTarget (soleWindowEnv 1870) (sampleOverlay true).1
        (sampleOverlay true).2 (some 7) = some (false, h1, self1) ∧
      self1.target = none ∧ self1.overlay.visible = false) ∧
    (∃ h1 self1,
      StackOverlay.setTarget sampleEnv (sampleOverlay true).1 (sampleOverlay true).2 none
        = some (false, h1, self1) ∧
      self1.target = none ∧ self1.overlay.visible = false) :=
  ⟨setTarget_bails_without_neighbour (soleWindowEnv 0) _ _ (some 7)
      (fun w hw => Or.inr (by cases hw; rfl)),
   setTarget_bails_without_neighbour (soleWindowEnv 1870) _ _ (some 7)
      (fun w hw => Or.inl (by cases hw; decide)),
   setTarget_bails_without_neighbour sampleEnv _ _ none (fun w hw => by cases hw)⟩

/-- Claim C7. Calling `setTarget` twice in a row in the same environment gives the
same return value, target, visibility, overlay rectangle and icon position as
calling it once. -/
theorem setTarget_idempotent (env : Env) (h : Host) (self : StackOverlay)
    (metaWindow : Option Nat) :
    ∃ r h1 self1 h2 self2,
      StackOverlay.setTarget env h self metaWindow = some (r, h1, self1) ∧
      StackOverlay.setTarget env h1 self1 metaWindow = some (r, h2, self2) ∧
      self2.target = self1.target ∧
      self2.overlay.visible = self1.overlay.visible ∧
      self2.overlay.x = self1.overlay.x ∧ self2.overlay.y = self1.overlay.y ∧
      self2.overlay.width = self1.overlay.width ∧
      self2.overlay.height = self1.overlay.height ∧
      self2.iconPosition = self1.iconPosition := by
  by_cases hb : ∀ w, metaWindow = some w → StackOverlay.edgeBranch env w = none
  · exact ⟨false, _, _, _, _, setTarget_of_bail env h self metaWindow hb,
      setTarget_of_bail env _ _ metaWindow hb, rfl, rfl, rfl, rfl, rfl, rfl, rfl⟩
  · push_neg at hb
    obtain ⟨w, hw, hne⟩ := hb
    subst hw
    cases hg : StackOverlay.edgeBranch env w with
    | none => exact absurd hg hne
    | some g =>
      obtain ⟨h1, self1, hs1, t1, s1, x1, y1, w1, ht1, _, v1, _, _, _, i1⟩ :=
        setTarget_of_edgeBranch env h self w g hg
      obtain ⟨h2, self2, hs2, t2, s2, x2, y2, w2, ht2, _, v2, _, _, _, i2⟩ :=
        setTarget_of_edgeBranch env h1 self1 w g hg
      refine ⟨true, h1, self1, h2, self2, hs1, hs2, ?_, ?_, ?_, ?_, ?_, ?_, ?_⟩
      · rw [t1, t2]
      · rw [v1, v2]
      · rw [x1, x2]
      · rw [y2]
      · rw [w1, w2]
      · rw [ht2]
      · rw [i2, i1, s1, y1]
        by_cases hsi : self.showIcon = true
        · simp [hsi]
        · simp [hsi]

/-! ## The two edges -/

/-- Claim C8, counterexample. On a monitor 60 wide with stack margin 50, a left-edge
placement (neighbour at x = 100) gets width 50 and a right-edge placement
(neighbour 50 wide at x = -100) gets x = 10: the two rectangles overlap. -/
theorem setTarget_edges_overlap_narrow_monitor :
    narrowMonitorEnv.actorX 0 < narrowMonitorEnv.stack_margin ∧
    ¬ narrowMonitorEnv.actorX 3 < narrowMonitorEnv.stack_margin ∧
    ∃ h1 self1 h2 self2,
      StackOverlay.setTarget narrowMonitorEnv (sampleOverlay false).1 (sampleOverlay false).2
        (some 0) = some (true, h1, self1) ∧
      StackOverlay.setTarget narrowMonitorEnv (sampleOverlay false).1 (sampleOverlay false).2
        (some 3) = some (true, h2, self2) ∧
      ¬ (self1.overlay.x + self1.overlay.width ≤ self2.overlay.x) :=
  ⟨by decide, by decide, _, _, _, _, rfl, rfl, by decide⟩

/-- Claim C8, amended. For a left-edge and a right-edge placement on the same
monitor, if twice the stack margin fits in the monitor width, or the left
neighbour's effective x minus 5 (clamped at 0) is at most the right
neighbour's effective right edge plus 5, then both calls succeed and the left
overlay ends at or before the start of the right overlay. -/
theorem setTarget_edges_disjoint (env : Env) (hL hR : Host) (sL sR : StackOverlay)
    (wL wR nL nR : Nat)
    (hxL : env.actorX wL < env.stack_margin) (hxR : ¬ env.actorX wR < env.stack_margin)
    (hnL : relevantNeighbour env wL = some nL) (hnR : relevantNeighbour env wR = some nR)
    (hc : 2 * env.stack_margin ≤ env.monitorWidth ∨
      max 0 (orNumber (env.destinationX nL) (env.frameX nL) - 5) ≤
        orNumber (env.destinationX nR) (env.frameX nR) + env.frameWidth nR + 5) :
    ∃ h1 self1 h2 self2,
      StackOverlay.setTarget env hL sL (some wL) = some (true, h1, self1) ∧
      StackOverlay.setTarget env hR sR (some wR) = some (true, h2, self2) ∧
      self1.overlay.x + self1.overlay.width ≤ self2.overlay.x := by
  obtain ⟨h1, self1, hs1, _, _, x1, _, w1, _⟩ :=
    setTarget_of_edgeBranch env hL sL wL _ (edgeBranch_left env wL nL hxL hnL)
  obtain ⟨h2, self2, hs2, _, _, x2, _, _, _⟩ :=
    setTarget_of_edgeBranch env hR sR wR _ (edgeBranch_right env wR nR hxR hnR)
  refine ⟨h1, self1, h2, self2, hs1, hs2, ?_⟩
  rw [x1, w1, x2]
  simp only [zero_add]
  rcases hc with hc | hc
  · exact le_trans (min_le_left _ _) (le_trans (by omega) (le_max_left _ _))
  · exact le_trans (min_le_right _ _) (le_trans hc (le_max_right _ _))

/-- Claim C8, witness of the amended claim. On the sample monitor (1920 wide, stack
margin 50) the left overlay of window 0 and the right overlay of window 2 do
not overlap. -/
theorem setTarget_edges_disjoint_witness :
    ∃ h1 self1 h2 self2,
      StackOverlay.setTarget sampleEnv (sampleOverlay false).1 (sampleOverlay false).2
        (some 0) = some (true, h1, self1) ∧
      StackOverlay.setTarget sampleEnv (sampleOverlay false).1 (sampleOverlay false).2
        (some 2) = some (true, h2, self2) ∧
      self1.overlay.x + self1.overlay.width ≤ self2.overlay.x :=
  setTarget_edges_disjoint sampleEnv _ _ _ _ 0 2 1 1 (by decide) (by decide) (by decide)
    (by decide) (Or.inl (by decide))

/-! ## Reachable states -/

/-- After any `setTarget` call, an instance without target is hidden, and the
icon-display flag is unchanged. -/
theorem setTarget_target_visible (env : Env) (h : Host) (self : StackOverlay)
    (metaWindow : Option Nat) (r : Bool) (h1 : Host) (self1 : StackOverlay)
    (hs : StackOverlay.setTarget env h self metaWindow = some (r, h1, self1)) :
    self1.showIcon = self.showIcon ∧
    (self1.target = none → self1.overlay.visible = false) := by
  by_cases hb : ∀ w, metaWindow = some w → StackOverlay.edgeBranch env w = none
  · rw [setTarget_of_bail env h self metaWindow hb] at hs
    simp only [Option.some.injEq, Prod.mk.injEq] at hs
    obtain ⟨_, _, rfl⟩ := hs
    exact ⟨rfl, fun _ => rfl⟩
  · push_neg at hb
    obtain ⟨w, hw, hne⟩ := hb
    subst hw
    cases hg : StackOverlay.edgeBranch env w with
    | none => exact absurd hg hne
    | some g =>
      obtain ⟨h2, self2, hs2, t2, s2, _⟩ := setTarget_of_edgeBranch env h self w g hg
      rw [hs2] at hs
      simp only [Option.some.injEq, Prod.mk.injEq] at hs
      obtain ⟨_, _, rfl⟩ := hs
      refine ⟨s2, fun hn => ?_⟩
      rw [t2] at hn
      cases hn

/-- Without icon display, `setTarget` touches neither the icon field nor the
children of the overlay actor. -/
theorem setTarget_without_icon (env : Env) (h : Host) (self : StackOverlay)
    (metaWindow : Option Nat) (r : Bool) (h1 : Host) (self1 : StackOverlay)
    (hsi : self.showIcon = false)
    (hs : StackOverlay.setTarget env h self metaWindow = some (r, h1, self1)) :
    self1.icon = self.icon ∧ self1.overlay.children = self.overlay.children := by
  unfold StackOverlay.setTarget at hs
  cases metaWindow with
  | none =>
    simp only [StackOverlay.bail, Option.some.injEq, Prod.mk.injEq] at hs
    obtain ⟨_, _, rfl⟩ := hs
    exact ⟨rfl, rfl⟩
  | some w =>
    cases hg : StackOverlay.edgeBranch env w with
    | none =>
      simp only [hg, StackOverlay.bail, Option.some.injEq, Prod.mk.injEq] at hs
      obtain ⟨_, _, rfl⟩ := hs
      exact ⟨rfl, rfl⟩
    | some g =>
      simp only [hg, hsi, Bool.false_eq_true, if_false, Option.some.injEq,
        Prod.mk.injEq] at hs
      obtain ⟨_, _, rfl⟩ := hs
      exact ⟨rfl, rfl⟩

theorem step_idleHidden (showIcon : Bool) (st : Host × StackOverlay) (e : Event)
    (hi : IdleHidden showIcon st) :
    ∃ st1, step st e = some st1 ∧ IdleHidden showIcon st1 := by
  obtain ⟨i1, i2, i3⟩ := hi
  cases e with
  | setTarget env metaWindow =>
    obtain ⟨⟨r, h1, self1⟩, hs⟩ := setTarget_total env st.1 st.2 metaWindow
    obtain ⟨k1, k2⟩ := setTarget_target_visible env st.1 st.2 metaWindow r h1 self1 hs
    refine ⟨(h1, self1), by simp [step, hs], k1.trans i1, k2, fun hf => ?_⟩
    obtain ⟨j1, j2⟩ :=
      setTarget_without_icon env st.1 st.2 metaWindow r h1 self1 (i1.trans hf) hs
    exact ⟨j1.trans (i3 hf).1, j2.trans (i3 hf).2⟩
  | restacked order => exact ⟨_, rfl, i1, i2, i3⟩

theorem run_idleHidden (showIcon : Bool) (events : List Event) :
    ∀ st : Host × StackOverlay, IdleHidden showIcon st →
      ∃ st1, run st events = some st1 ∧ IdleHidden showIcon st1 := by
  induction events with
  | nil => exact fun st hi => ⟨st, rfl, hi⟩
  | cons e rest ih =>
    intro st hi
    obtain ⟨st1, hs, hi1⟩ := step_idleHidden showIcon st e hi
    obtain ⟨st2, hr, hi2⟩ := ih st1 hi1
    exact ⟨st2, by simp [run, hs, hr], hi2⟩

/-- Claim C5, counterexample. With icon display enabled, a successful
`setTarget(0)` followed by `setTarget(null)` reaches a state whose target is
null while the overlay actor still has its icon child. -/
theorem idle_overlay_keeps_icon :
    ∃ st,
      run (StackOverlay._init sampleEnv sampleHost true)
        [Event.setTarget sampleEnv (some 0), Event.setTarget sampleEnv none] = some st ∧
      st.2.target = none ∧ st.2.overlay.children ≠ [] ∧ st.2.icon ≠ none :=
  ⟨_, rfl, rfl, by decide, by decide⟩

/-- Claim C5, amended. Every sequence of `setTarget` calls and restack notifications
after construction runs to a state in which a null target implies that the
overlay is hidden and, when icon display is not enabled, that there is no icon
and no icon child. -/
theorem idle_overlay_hidden (env : Env) (h : Host) (showIcon : Bool) (events : List Event) :
    ∃ st, run (StackOverlay._init env h showIcon) events = some st ∧
      (st.2.target = none →
        st.2.overlay.visible = false ∧
        (showIcon = false → st.2.icon = none ∧ st.2.overlay.children = [])) := by
  obtain ⟨st, hr, _, i2, i3⟩ :=
    run_idleHidden showIcon events (StackOverlay._init env h showIcon)
      ⟨rfl, fun _ => rfl, fun _ => ⟨rfl, rfl⟩⟩
  exact ⟨st, hr, fun hn => ⟨i2 hn, i3⟩⟩

/-- Claim C5, witness of the amended claim. Without icon display, the run of the
counterexample ends idle, hidden and without icon. -/
theorem idle_overlay_hidden_witness :
    ∃ st,
      run (StackOverlay._init sampleEnv sampleHost false)
        [Event.setTarget sampleEnv (some 0), Event.setTarget sampleEnv none] = some st ∧
      st.2.target = none ∧ st.2.overlay.visible = false ∧
      st.2.icon = none ∧ st.2.overlay.children = [] := by
  obtain ⟨st, hr, hi⟩ := idle_overlay_hidden sampleEnv sampleHost false
    [Event.setTarget sampleEnv (some 0), Event.setTarget sampleEnv none]
  have ht : st.2.target = none := by
    have hrun : run (StackOverlay._init sampleEnv sampleHost false)
        [Event.setTarget sampleEnv (some 0), Event.setTarget sampleEnv none] = some _ := rfl
    rw [hrun] at hr
    cases hr
    rfl
  exact ⟨st, hr, ht, (hi ht).1, ((hi ht).2 rfl).1, ((hi ht).2 rfl).2⟩

/-! ## Restacking -/

theorem insertAbove_spec (sibling child : Node) (l : List Node) (hs : sibling ∈ l) :
    ∃ below above, insertAbove sibling child l = below ++ sibling :: child :: above := by
  induction l with
  | nil => cases hs
  | cons n rest ih =>
    by_cases hn : n = sibling
    · exact ⟨[], rest, by simp [insertAbove, hn]⟩
    · have hm : sibling ∈ rest := by
        rcases List.mem_cons.1 hs with heq | hm
        · exact absurd heq.symm hn
        · exact hm
      obtain ⟨below, above, hi⟩ := ih hm
      exact ⟨n :: below, above, by simp [insertAbove, hn, hi]⟩

theorem insertAbove_perm (sibling child : Node) (l : List Node) (hs : sibling ∈ l) :
    (insertAbove sibling child l).Perm (child :: l) := by
  induction l with
  | nil => cases hs
  | cons n rest ih =>
    by_cases hn : n = sibling
    · simp only [insertAbove, hn, if_true]
      exact List.Perm.swap child sibling rest
    · have hm : sibling ∈ rest := by
        rcases List.mem_cons.1 hs with heq | hm
        · exact absurd heq.symm hn
        · exact hm
      simp only [insertAbove, hn, if_false]
      exact ((ih hm).cons n).trans (List.Perm.swap child n rest)

theorem filter_ne_perm (child : Node) (l : List Node) (hnd : l.Nodup) (hc : child ∈ l) :
    (child :: l.filter (fun n => decide (n ≠ child))).Perm l := by
  have he : l.filter (fun n => decide (n ≠ child)) = l.erase child := by
    rw [hnd.erase_eq_filter]
    congr 1
    funext n
    by_cases hn : n = child <;> simp [hn]
  rw [he]
  exact (List.perm_cons_erase hc).symm

/-- Claim C6. Whatever sibling order the host has written: while the instance tracks
a target whose backing actor and the overlay actor are children of the window
group, the restacked handler leaves the overlay actor immediately above the
target's backing actor (reordering the children, when they are distinct,
without adding or dropping any); without a target the handler changes
nothing. -/
theorem restacked_places_overlay_above_target (h : Host) (self : StackOverlay) :
    (∀ t, self.target = some t →
      self.overlay.node ∈ h.window_group →
      Node.windowActor t ∈ h.window_group →
      self.overlay.node ≠ Node.windowActor t →
      ImmediatelyAbove (StackOverlay.restacked h self).window_group self.overlay.node
        (Node.windowActor t) ∧
      (h.window_group.Nodup →
        (StackOverlay.restacked h self).window_group.Perm h.window_group)) ∧
    (self.target = none → StackOverlay.restacked h self = h) := by
  constructor
  · intro t ht ho ha hne
    have hmem : Node.windowActor t ∈
        h.window_group.filter (fun n => decide (n ≠ self.overlay.node)) := by
      rw [List.mem_filter]
      exact ⟨ha, by simpa using hne.symm⟩
    have hgroup : (StackOverlay.restacked h self).window_group =
        insertAbove (Node.windowActor t) self.overlay.node
          (h.window_group.filter (fun n => decide (n ≠ self.overlay.node))) := by
      unfold StackOverlay.restacked
      simp only [ht, set_child_above_sibling, ho, if_true]
      rw [if_neg]
      rintro (heq | hnot)
      · exact hne heq.symm
      · exact hnot ha
    rw [hgroup]
    exact ⟨insertAbove_spec _ _ _ hmem,
      fun hnd => (insertAbove_perm _ _ _ hmem).trans (filter_ne_perm _ _ hnd ho)⟩
  · intro hn
    unfold StackOverlay.restacked
    rw [hn]

/-- Claim C6, witness. The host has put the overlay actor at the bottom, below the
three window actors; the instance tracks window 1. After the handler the order
is window 0, window 1, overlay, window 2. -/
theorem restacked_places_overlay_above_target_witness :
    ImmediatelyAbove
      (StackOverlay.restacked
        { sampleHost with window_group :=
            [Node.created 0, Node.windowActor 0, Node.windowActor 1, Node.windowActor 2] }
        { (sampleOverlay false).2 with target := some 1 }).window_group
      (Node.created 0) (Node.windowActor 1) ∧
    StackOverlay.restacked sampleHost (sampleOverlay false).2 = sampleHost :=
  ⟨((restacked_places_overlay_above_target
      { sampleHost with window_group :=
          [Node.created 0, Node.windowActor 0, Node.windowActor 1, Node.windowActor 2] }
      { (sampleOverlay false).2 with target := some 1 }).1 1 rfl (by decide) (by decide)
      (by decide)).1,
   (restacked_places_overlay_above_target sampleHost (sampleOverlay false).2).2 rfl⟩

/-! ## Teardown -/

/-- After `updateIcon` the icon field is a child of the overlay actor. -/
theorem updateIcon_icon_is_child (env : Env) (h h1 : Host) (self self1 : StackOverlay)
    (hu : StackOverlay.updateIcon env h self = some (h1, self1)) :
    ∀ i, self1.icon = some i → i ∈ self1.overlay.children := by
  unfold StackOverlay.updateIcon at hu
  cases ht : (StackOverlay.dropIcon h self).2.target with
  | none => simp [ht] at hu
  | some t =>
    simp only [ht, Option.some.injEq, Prod.mk.injEq] at hu
    obtain ⟨_, rfl⟩ := hu
    intro i hi
    simp only [Option.some.injEq] at hi
    subst hi
    simp

/-- In every state reached from construction the icon field, when set, is a
child of the overlay actor, so the children cover every icon the instance
owns. -/
theorem run_icon_is_child (events : List Event) :
    ∀ st : Host × StackOverlay,
      (∀ i, st.2.icon = some i → i ∈ st.2.overlay.children) →
      ∃ st1, run st events = some st1 ∧
        ∀ i, st1.2.icon = some i → i ∈ st1.2.overlay.children := by
  induction events with
  | nil => exact fun st hi => ⟨st, rfl, hi⟩
  | cons e rest ih =>
    intro st hi
    have hstep : ∃ st1, step st e = some st1 ∧
        ∀ i, st1.2.icon = some i → i ∈ st1.2.overlay.children := by
      cases e with
      | restacked order => exact ⟨_, rfl, hi⟩
      | setTarget env metaWindow =>
        obtain ⟨⟨r, h1, self1⟩, hs⟩ := setTarget_total env st.1 st.2 metaWindow
        refine ⟨(h1, self1), by simp [step, hs], ?_⟩
        unfold StackOverlay.setTarget at hs
        cases metaWindow with
        | none =>
          simp only [StackOverlay.bail, Option.some.injEq, Prod.mk.injEq] at hs
          obtain ⟨_, _, rfl⟩ := hs
          exact hi
        | some w =>
          cases hg : StackOverlay.edgeBranch env w with
          | none =>
            simp only [hg, StackOverlay.bail, Option.some.injEq, Prod.mk.injEq] at hs
            obtain ⟨_, _, rfl⟩ := hs
            exact hi
          | some g =>
            simp only [hg] at hs
            cases hsi : st.2.showIcon with
            | false =>
              simp only [hsi, Bool.false_eq_true, if_false, Option.some.injEq,
                Prod.mk.injEq] at hs
              obtain ⟨_, _, rfl⟩ := hs
              exact hi
            | true =>
              simp only [hsi, if_true] at hs
              cases hu : StackOverlay.updateIcon env st.1
                  { showIcon := true, target := some w, icon := st.2.icon,
                    overlay := { st.2.overlay with x := g.1, width := g.2 },
                    pressId := st.2.pressId, releaseId := st.2.releaseId,
                    restackId := st.2.restackId } with
              | none => simp [hu] at hs
              | some res =>
                simp only [hu, Option.some.injEq, Prod.mk.injEq] at hs
                obtain ⟨_, _, rfl⟩ := hs
                exact updateIcon_icon_is_child env _ res.1 _ res.2 hu
    obtain ⟨st1, hs, hi1⟩ := hstep
    obtain ⟨st2, hr, hi2⟩ := ih st1 hi1
    exact ⟨st2, by simp [run, hs, hr], hi2⟩

theorem disableOne_tornDown (h : Host) (self : StackOverlay) :
    TornDown (disableOne h self).1 self := by
  simp [TornDown, disableOne, Host.disconnect, Host.destroy, List.mem_filter]
  intro c hc _ _
  exact ⟨c, hc, rfl⟩

theorem disableOne_preserves (h : Host) (self other : StackOverlay) (ht : TornDown h other) :
    TornDown (disableOne h self).1 other := by
  obtain ⟨t1, t2, t3, t4, t5⟩ := ht
  simp only [TornDown, disableOne, Host.disconnect, Host.destroy, List.mem_filter]
  refine ⟨fun hc => t1 hc.1.1.1, fun hc => t2 hc.1.1.1, fun hc => t3 hc.1.1.1,
    fun hc => t4 hc.1, fun c hc hl => t5 c hc hl.1⟩

/-- Claim C9. Whatever the state of the two instances (idle or tracking, with or
without icon child), `disable()` returns and afterwards, for both instances,
the press, release and restacked handlers are disconnected and neither the
overlay actor nor any of its children is live. -/
theorem disable_tears_down_both (h : Host) (left right : StackOverlay) :
    ∃ h1 m1,
      disable h { leftOverlay := some left, rightOverlay := some right } = some (h1, m1) ∧
      TornDown h1 left ∧ TornDown h1 right :=
  ⟨_, _, rfl, disableOne_preserves _ right left (disableOne_tornDown h left),
    disableOne_tornDown _ right⟩

/-- An example of the whole life cycle: `enable()`, the left instance tracking
window 0, then `disable()`. No handler and no created actor is left, and the
window group holds the three window actors again. -/
theorem enable_disable_example :
    ∃ h1 self1 h2 m2,
      StackOverlay.setTarget sampleEnv (enable sampleEnv sampleHost).1
        (StackOverlay._init sampleEnv sampleHost false).2 (some 0) = some (true, h1, self1) ∧
      disable h1 { (enable sampleEnv sampleHost).2 with leftOverlay := some self1 }
        = some (h2, m2) ∧
      h2.handlers = [] ∧ h2.live = [] ∧ h2.window_group = sampleHost.window_group :=
  ⟨_, _, _, _, rfl, rfl, by decide, by decide, by decide⟩

end PaperWM
